import Mathlib

/-!
Verification of the profile / session / connection layer of `libugremote`.

The development shallowly embeds the three Python source files:

* `src/ug_connection/UGConnProfile.py` — class `UGConnProfile`
* `src/ug_profile/UGUserProfile.py`    — class `UGUserProfile`
* `src/ug_connection/UGConnection.py`  — class `UGConnection`

Parsed JSON documents are modelled by the inductive type `JValue`
(JSON numbers are modelled as integers; the profiles only ever store
integers).  Reading and parsing a file is modelled by an
`Option JValue`: `none` stands for an I/O or parse failure.  The
filesystem (`os.path.exists`) is an oracle `String → Bool`.  Python
exceptions that a method can raise are made explicit: a mutating
method returns its post-state together with an `Option PyErr`
(mutations performed before a `raise` are visible in the post-state,
exactly as for the in-place mutations of the Python objects), and a
helper that only produces a value returns `Except PyErr`.
-/

/-- A parsed JSON document (`json.load` output).  Numbers are modelled as
integers; object fields keep their textual order, as `json.load` does for
Python dicts. -/
inductive JValue where
  | jnull
  | jbool (b : Bool)
  | jnum (n : Int)
  | jstr (s : String)
  | jarr (xs : List JValue)
  | jobj (fields : List (String × JValue))
deriving Repr

/-- A parsed JSON object / Python dict with string keys. -/
abbrev JObj := List (String × JValue)

/-- Dict lookup, last occurrence wins (as `json.load` builds dicts). -/
def jlookup (fields : JObj) (k : String) : Option JValue :=
  fields.foldl (fun acc kv => if kv.1 == k then some kv.2 else acc) none

mutual

/-- Python `==` on parsed JSON values.  The only cross-type equality in
Python that matters for JSON data is `bool == int` (`True == 1`,
`False == 0`); everything else compares structurally.  Dicts arising
here are parsed JSON objects and are compared fieldwise. -/
def pyEq : JValue → JValue → Bool
  | .jnull, .jnull => true
  | .jbool a, .jbool b => a == b
  | .jbool a, .jnum n => (if a then (1 : Int) else 0) == n
  | .jnum n, .jbool a => n == (if a then (1 : Int) else 0)
  | .jnum a, .jnum b => a == b
  | .jstr a, .jstr b => a == b
  | .jarr a, .jarr b => pyEqList a b
  | .jobj a, .jobj b => pyEqFields a b
  | _, _ => false

def pyEqList : List JValue → List JValue → Bool
  | [], [] => true
  | x :: xs, y :: ys => pyEq x y && pyEqList xs ys
  | _, _ => false

def pyEqFields : List (String × JValue) → List (String × JValue) → Bool
  | [], [] => true
  | (k1, v1) :: xs, (k2, v2) :: ys => k1 == k2 && pyEq v1 v2 && pyEqFields xs ys
  | _, _ => false

end

/-- Python `!=`. -/
def pyNe (a b : JValue) : Bool := !(pyEq a b)

/-- Python substring test `n in h` on strings (`"" in s` is `True`). -/
def strContains (h n : String) : Bool := n == "" || (h.splitOn n).length ≥ 2

/-- Python exceptions that the embedded methods can raise. -/
inductive PyErr where
  | keyError
  | typeError
  | valueError
  | indexError
  | ioError
deriving DecidableEq, Repr

/-- Python `needle in haystack` on parsed JSON values; `none` models the
`TypeError` raised when the haystack is not a container (or the needle is
unhashable for a dict haystack).  JSON object keys are strings, so a
hashable non-string needle is simply absent. -/
def pyMem (needle haystack : JValue) : Option Bool :=
  match haystack with
  | .jarr xs => some (xs.any (fun x => pyEq x needle))
  | .jstr h =>
    match needle with
    | .jstr n => some (strContains h n)
    | _ => none
  | .jobj fields =>
    match needle with
    | .jstr n => some (fields.any (fun kv => kv.1 == n))
    | .jnum _ => some false
    | .jbool _ => some false
    | .jnull => some false
    | _ => none
  | _ => none

/-- Python `len`; `none` models the `TypeError` on sizeless values. -/
def pyLen : JValue → Option Nat
  | .jstr s => some s.length
  | .jarr xs => some xs.length
  | .jobj fields => some fields.length
  | _ => none

/-- The integer a JSON value denotes in a Python integer comparison
(`bool` coerces to `0`/`1`); `none` models the `TypeError` raised when
ordering a non-number against an int. -/
def pyAsInt : JValue → Option Int
  | .jnum n => some n
  | .jbool b => some (if b then 1 else 0)
  | _ => none

/-- Python `container[k]` for a string key `k`: `KeyError` for a dict
without the key, `TypeError` when subscripting a list/str/scalar with a
string. -/
def jgetKey (j : JValue) (k : String) : Except PyErr JValue :=
  match j with
  | .jobj fields =>
    match jlookup fields k with
    | some v => Except.ok v
    | none => Except.error PyErr.keyError
  | _ => Except.error PyErr.typeError

/-! ## `UGConnProfile` (src/ug_connection/UGConnProfile.py) -/

namespace UGConnProfile

/-- Class attribute `UGConnProfile.version = 1`. -/
def version : Int := 1

/-- The dict `UGConnProfile._empty_profile`. -/
def empty_profile : JObj :=
  [("version", .jnum version),
   ("servers", .jarr []),
   ("start_vnc_srv", .jbool false),
   ("forwarding_ports", .jarr [])]

/-- Method `__getitem__`: plain dict indexing, `none` models the `KeyError`
raised on an absent key (there is no implicit default). -/
def getItem (p : JObj) (k : String) : Option JValue := jlookup p k

/-- The check `"version" in json_data and json_data["version"] == UGConnProfile.version`,
i.e. the negation of the guard that makes `load_profile` stop. -/
def versionFieldOk (v : Option JValue) : Bool :=
  match v with
  | some x => pyEq x (.jnum version)
  | none => false

/-- Method `load_profile`.  The argument is the outcome of `open` + `json.load`
(`none` = I/O or parse error, caught by the `except` clause).  A
non-object top-level document also ends at the default profile: the
membership test `"version" not in json_data` either returns `True`
(list/str without it), after which the subscript `json_data["version"]`
raises `TypeError`, or `in` itself raises `TypeError` — every such path
returns or is caught with `self._profile` still the fresh default.  On
success the raw parsed object is installed verbatim. -/
def load_profile (file : Option JValue) : JObj :=
  match file with
  | none => empty_profile
  | some json_data =>
    match json_data with
    | .jobj fields =>
      if !(versionFieldOk (jlookup fields "version")) then empty_profile
      else fields
    | _ => empty_profile

/-- Method `save_profile`: the JSON document written to disk on a successful
write (`json.dumps` of the stored dict; parsing it back yields the same
`JValue`). -/
def save_profile (p : JObj) : Option JValue := some (.jobj p)

/-- A connection-profile state is valid when it is a genuine dict
(no duplicate keys) whose `version` entry equals the supported version. -/
def valid (p : JObj) : Prop :=
  (p.map Prod.fst).Nodup ∧ versionFieldOk (jlookup p "version") = true

instance (p : JObj) : Decidable (valid p) := by
  unfold valid; infer_instance

end UGConnProfile

/-! ## `UGConnection` (src/ug_connection/UGConnection.py) -/

/-- The credential actually handed to `paramiko.SSHClient.connect`. -/
inductive AuthMethod where
  | password (p : String)
  | key_filename (k : String)
deriving DecidableEq, Repr

/-- Observable outcome of one `connect` call. -/
inductive ConnectOutcome where
  /-- Already connected to the same `(hostname, username)`: reported reuse,
  immediate return. -/
  | reused
  /-- Transport authentication succeeded with the given credential. -/
  | ok (m : AuthMethod)
  /-- Transport raised (authentication / name-resolution error) for the
  given credential; the exception propagates to the caller. -/
  | raised (m : AuthMethod)
  /-- Raised `ValueError`: both `passwd` and `key_filename` were `None`. -/
  | invalidArgs
deriving DecidableEq, Repr

/-- Connection Lifecycle Manager state (`UGConnection.__init__`). -/
structure UGConnection where
  connected : Bool
  hostname : Option String
  username : Option String
deriving DecidableEq, Repr

namespace UGConnection

/-- A freshly constructed manager. -/
def init : UGConnection := { connected := false, hostname := none, username := none }

/-- Method `disconnect`: closes the client and clears the endpoint, from any
prior state. -/
def disconnect (_c : UGConnection) : UGConnection :=
  { connected := false, hostname := none, username := none }

/-- Method `connect`.  `transportOk h u m` is the external transport oracle:
`true` when `paramiko` authenticates, `false` when it raises (the
exception is re-raised to the caller).  Returns the post-state and the
observable outcome. -/
def connect (transportOk : String → String → AuthMethod → Bool)
    (c : UGConnection) (hostname username : String)
    (passwd key_filename : Option String) : UGConnection × ConnectOutcome :=
  if c.connected = true ∧ c.hostname = some hostname ∧ c.username = some username then
    (c, .reused)
  else
    let c1 := disconnect c
    match passwd with
    | some p =>
      if transportOk hostname username (.password p) then
        ({ connected := true, hostname := some hostname, username := some username },
         .ok (.password p))
      else (c1, .raised (.password p))
    | none =>
      match key_filename with
      | some k =>
        if transportOk hostname username (.key_filename k) then
          ({ connected := true, hostname := some hostname, username := some username },
           .ok (.key_filename k))
        else (c1, .raised (.key_filename k))
      | none => (c1, .invalidArgs)

end UGConnection

/-! ## `UGUserProfile` (src/ug_profile/UGUserProfile.py) -/

/-- One entry of `self["sessions"]`.  Every session dict the class ever
builds is a copy of `_empty_session` whose six keys are then assigned, so
a record with six `JValue` fields is an exact model.  Field values of a
session loaded from disk can be arbitrary JSON values. -/
structure Session where
  name : JValue
  conn_profile : JValue
  last_server : JValue
  username : JValue
  private_key_path : JValue
  vnc_passwd_path : JValue
deriving Repr

/-- In-memory state of the `UGUserProfile` singleton: the `_profile`
dict (whose keys are fixed by `_empty_user_profile` and the load path)
plus the `_conn_profiles` mapping built once at construction (file stem
→ loaded connection-profile dict; stems of distinct files are distinct
keys). -/
structure UGUserProfile where
  viewer : String
  last_session : Int
  sessions : List Session
  conn_profiles : List (String × JObj)
deriving Repr

namespace UGUserProfile

/-- Class attribute `UGUserProfile.version = 1`. -/
def version : Int := 1

/-- The list `UGUserProfile._supported_viewers`. -/
def supported_viewers : List String := ["TigerVNC", "RealVNC"]

/-- The dict `UGUserProfile._empty_session`. -/
def empty_session : Session :=
  { name := .jstr "", conn_profile := .jstr "", last_server := .jstr "",
    username := .jstr "", private_key_path := .jstr "", vnc_passwd_path := .jstr "" }

/-- The state with `_profile = deepcopy(_empty_user_profile)` and the
given construction-time catalog mapping. -/
def empty_on (cps : List (String × JObj)) : UGUserProfile :=
  { viewer := "TigerVNC", last_session := -1, sessions := [], conn_profiles := cps }

/-- Lookup `self._conn_profiles[key]` for a session's `conn_profile` value: the
mapping's keys are file stems (strings), so any non-string key misses
(`KeyError`, or `TypeError` for an unhashable one) — both modelled as
`none`. -/
def lookupConnProfile (cps : List (String × JObj)) (key : JValue) : Option JObj :=
  match key with
  | .jstr s => (cps.find? (fun kv => kv.1 == s)).map (·.2)
  | _ => none

/-- Method `load_session` (the session reconciler), translated clause by clause.
`path_exists` is the `os.path.exists` oracle (paths that the code checks
are strings; `os.path.exists` on a JSON non-string value raises
`TypeError`, modelled below — the file-descriptor reading of an integer
argument is environment state outside this model). -/
def load_session (cps : List (String × JObj)) (path_exists : String → Bool)
    (session : JValue) : Except PyErr Session :=
  match jgetKey session "name" with
  | .error e => .error e
  | .ok name =>
    match jgetKey session "conn_profile" with
    | .error e => .error e
    | .ok cpName =>
      match lookupConnProfile cps cpName with
      | none => .error PyErr.keyError
      | some cp =>
        match jgetKey session "last_server" with
        | .error e => .error e
        | .ok lastServerRaw =>
          match jlookup cp "servers" with
          | none => .error PyErr.keyError
          | some servers =>
            match pyMem lastServerRaw servers with
            | none => .error PyErr.typeError
            | some mem =>
              let last_server := if mem then lastServerRaw else JValue.jstr ""
              match jgetKey session "username" with
              | .error e => .error e
              | .ok username =>
                match jgetKey session "private_key_path" with
                | .error e => .error e
                | .ok pkRaw =>
                  match pkRaw with
                  | .jstr pk =>
                    if path_exists pk = false then
                      .ok { name := name, conn_profile := cpName,
                            last_server := last_server, username := username,
                            private_key_path := .jstr "", vnc_passwd_path := .jstr "" }
                    else
                      match jgetKey session "vnc_passwd_path" with
                      | .error e => .error e
                      | .ok vpRaw =>
                        match vpRaw with
                        | .jstr vp =>
                          if path_exists vp = false then
                            .ok { name := name, conn_profile := cpName,
                                  last_server := last_server, username := username,
                                  private_key_path := .jstr pk, vnc_passwd_path := .jstr "" }
                          else
                            .ok { name := name, conn_profile := cpName,
                                  last_server := last_server, username := username,
                                  private_key_path := .jstr pk, vnc_passwd_path := .jstr vp }
                        | _ => .error PyErr.typeError
                  | _ => .error PyErr.typeError

/-- The `for session in json_data["sessions"]` loop body: reconcile each
raw session in order, stopping at the first exception. -/
def load_sessions_list (cps : List (String × JObj)) (path_exists : String → Bool) :
    List JValue → Except PyErr (List Session)
  | [] => .ok []
  | j :: rest =>
    match load_session cps path_exists j with
    | .error e => .error e
    | .ok s =>
      match load_sessions_list cps path_exists rest with
      | .error e => .error e
      | .ok ss => .ok (s :: ss)

/-- The `try` body of `load_profile`: parse, check `version`, check
`viewer` (a non-string viewer is not `in` the supported string list, so
it raises the same `ValueError`), check `last_session` with Python's
short-circuit `or` (`< 0` is decided before `sessions` is ever read),
then reconcile the sessions.  A non-array `sessions` value that passes
the length-range check feeds string elements to `load_session`, whose
first subscript raises `TypeError`; a non-object top-level document
likewise dies at its first membership test or subscript. -/
def load_profile_core (cps : List (String × JObj)) (path_exists : String → Bool)
    (file : Option JValue) : Except PyErr (String × Int × List Session) :=
  match file with
  | none => .error PyErr.ioError
  | some json_data =>
    match json_data with
    | .jobj fields =>
      if !(UGConnProfile.versionFieldOk (jlookup fields "version")) then
        .error PyErr.valueError
      else
        match jlookup fields "viewer" with
        | none => .error PyErr.keyError
        | some v =>
          match v with
          | .jstr vs =>
            if !(supported_viewers.contains vs) then .error PyErr.valueError
            else
              match jlookup fields "last_session" with
              | none => .error PyErr.keyError
              | some lsv =>
                match pyAsInt lsv with
                | none => .error PyErr.typeError
                | some lsi =>
                  if lsi < 0 then .error PyErr.valueError
                  else
                    match jlookup fields "sessions" with
                    | none => .error PyErr.keyError
                    | some ssv =>
                      match pyLen ssv with
                      | none => .error PyErr.typeError
                      | some n =>
                        if (n : Int) ≤ lsi then .error PyErr.valueError
                        else
                          match ssv with
                          | .jarr xs =>
                            match load_sessions_list cps path_exists xs with
                            | .error e => .error e
                            | .ok loaded => .ok (vs, lsi, loaded)
                          | _ => .error PyErr.typeError
          | _ => .error PyErr.valueError
    | _ => .error PyErr.typeError

/-- Method `load_profile`: `self._profile` is reset to the default before the
`try` block, and the `except` clause resets it to the default again and
only prints — so the caller observes either the fully loaded profile or
exactly the default, never a partial state, and never an exception.
`UGConnProfile.versionFieldOk` is reused because both classes check an
integer `version` field equal to `1` the same way. -/
def load_profile (st : UGUserProfile) (path_exists : String → Bool)
    (file : Option JValue) : UGUserProfile × Option PyErr :=
  match load_profile_core st.conn_profiles path_exists file with
  | .error e => (empty_on st.conn_profiles, some e)
  | .ok (vs, lsi, loaded) =>
    ({ viewer := vs, last_session := lsi, sessions := loaded,
       conn_profiles := st.conn_profiles }, none)

/-- Method `add_new_session`: the catalog-name check happens before the append,
so a rejected call leaves `sessions` unchanged. -/
def add_new_session (st : UGUserProfile) (name conn_profile : String) :
    UGUserProfile × Option PyErr :=
  if (st.conn_profiles.find? (fun kv => kv.1 == conn_profile)).isNone then
    (st, some PyErr.valueError)
  else
    ({ st with sessions := (st.sessions ++
        [{ empty_session with name := .jstr name, conn_profile := .jstr conn_profile }]) },
     none)

/-- In-place update of `self["sessions"][idx]`. -/
def updSessions : List Session → Nat → (Session → Session) → List Session
  | [], _, _ => []
  | s :: rest, 0, f => f s :: rest
  | s :: rest, n + 1, f => s :: updSessions rest n f

/-- Method `modify_session`, translated statement by statement.  The index
guard raises `IndexError`; then `self["last_session"] = session_idx` and
`session["username"] = username` are executed *before* the
`last_server` membership check, so those two mutations survive a
`ValueError` raised by that check (they are visible in the returned
post-state).  The membership check itself can also raise `KeyError`
(unknown catalog name, or a catalog dict without a `"servers"` entry) or
`TypeError` (a `"servers"` entry that is not a container). -/
def modify_session (st : UGUserProfile) (session_idx : Int) (username last_server : String)
    (private_key_path vnc_passwd_path : Option String) : UGUserProfile × Option PyErr :=
  if session_idx < 0 ∨ (st.sessions.length : Int) ≤ session_idx then
    (st, some PyErr.indexError)
  else
    let idx := session_idx.toNat
    let origS := (st.sessions.get? idx).getD empty_session
    let st := { st with last_session := session_idx }
    let st := { st with sessions := (updSessions st.sessions idx
                  (fun s => { s with username := .jstr username })) }
    match lookupConnProfile st.conn_profiles origS.conn_profile with
    | none => (st, some PyErr.keyError)
    | some cp =>
      match jlookup cp "servers" with
      | none => (st, some PyErr.keyError)
      | some servers =>
        match pyMem (.jstr last_server) servers with
        | none => (st, some PyErr.typeError)
        | some mem =>
          if mem = false then (st, some PyErr.valueError)
          else
            let st := { st with sessions := (updSessions st.sessions idx
                          (fun s => { s with last_server := .jstr last_server })) }
            let st := match private_key_path with
              | some p => { st with sessions := (updSessions st.sessions idx
                              (fun s => { s with private_key_path := .jstr p })) }
              | none => st
            let st := match vnc_passwd_path with
              | some p => { st with sessions := (updSessions st.sessions idx
                              (fun s => { s with vnc_passwd_path := .jstr p })) }
              | none => st
            (st, none)

/-- Method `change_viewer`. -/
def change_viewer (st : UGUserProfile) (viewer : String) : UGUserProfile × Option PyErr :=
  if !(supported_viewers.contains viewer) then (st, some PyErr.valueError)
  else ({ st with viewer := viewer }, none)

/-- The `json.dumps` image of one stored session dict. -/
def serializeSession (s : Session) : JValue :=
  .jobj [("name", s.name), ("conn_profile", s.conn_profile),
         ("last_server", s.last_server), ("username", s.username),
         ("private_key_path", s.private_key_path), ("vnc_passwd_path", s.vnc_passwd_path)]

/-- Method `save_profile`: the JSON document written on a successful write
(`json.dumps(self._profile)`, parsed back). -/
def save_profile (st : UGUserProfile) : Option JValue :=
  some (.jobj [("version", .jnum version),
               ("viewer", .jstr st.viewer),
               ("last_session", .jnum st.last_session),
               ("sessions", .jarr (st.sessions.map serializeSession))])

/-- One entry of the list built by `query_sessions`. -/
structure QueriedSession where
  name : JValue
  servers : JValue
  last_server : JValue
  username : JValue
  passwd : Bool
  vnc_manual : JValue
  vnc_passwd : Bool
deriving Repr

/-- The dict literal built for one session inside `query_sessions`.
Note that the code reads the catalog's `"servers"` and `"vnc_manual"`
entries by plain subscript: either being absent raises `KeyError`
(`"vnc_manual"` is not even a key of `UGConnProfile._empty_profile`),
and an unknown catalog name raises as well. -/
def query_one (cps : List (String × JObj)) (s : Session) : Except PyErr QueriedSession :=
  match lookupConnProfile cps s.conn_profile with
  | none => .error PyErr.keyError
  | some cp =>
    match jlookup cp "servers" with
    | none => .error PyErr.keyError
    | some servers =>
      match jlookup cp "vnc_manual" with
      | none => .error PyErr.keyError
      | some vm =>
        .ok { name := s.name, servers := servers, last_server := s.last_server,
              username := s.username, passwd := pyNe s.private_key_path (.jstr ""),
              vnc_manual := vm, vnc_passwd := pyNe s.vnc_passwd_path (.jstr "") }

/-- The loop of `query_sessions` over a session list. -/
def query_sessions_list (cps : List (String × JObj)) :
    List Session → Except PyErr (List QueriedSession)
  | [] => .ok []
  | s :: rest =>
    match query_one cps s with
    | .error e => .error e
    | .ok v =>
      match query_sessions_list cps rest with
      | .error e => .error e
      | .ok vs => .ok (v :: vs)

/-- Method `query_sessions`. -/
def query_sessions (st : UGUserProfile) : Except PyErr (List QueriedSession) :=
  query_sessions_list st.conn_profiles st.sessions

/-- The view `query_sessions` produces for a session whose catalog
resolves and has `"servers"` and `"vnc_manual"` entries (total
companion of `query_one`, used to state its success case). -/
def query_one_view (cps : List (String × JObj)) (s : Session) : QueriedSession :=
  let cp := (lookupConnProfile cps s.conn_profile).getD []
  { name := s.name,
    servers := (jlookup cp "servers").getD .jnull,
    last_server := s.last_server,
    username := s.username,
    passwd := pyNe s.private_key_path (.jstr ""),
    vnc_manual := (jlookup cp "vnc_manual").getD .jnull,
    vnc_passwd := pyNe s.vnc_passwd_path (.jstr "") }

end UGUserProfile
/-! ## Concrete states for scenario theorems -/

/-- A one-server catalog used by the concrete `modify_session` and
`query_sessions` scenarios. -/
def exampleCatalog : JObj :=
  [("version", .jnum 1),
   ("servers", .jarr [.jstr "ug250.eecg.toronto.edu"]),
   ("start_vnc_srv", .jbool false),
   ("forwarding_ports", .jarr [])]

/-- The profile state after `addNewSession("A", "catalogX")` on a fresh
profile whose catalog directory produced exactly `catalogX`. -/
def c1_before : UGUserProfile :=
  (UGUserProfile.add_new_session
    (UGUserProfile.empty_on [("catalogX", exampleCatalog)]) "A" "catalogX").1

/-- A profile holding one session that references the catalog `cat`,
whose loaded dict is the freshly constructed default — which has no
`vnc_manual` entry. -/
def c2_state_missing : UGUserProfile :=
  { viewer := "TigerVNC", last_session := 0,
    sessions := [{ UGUserProfile.empty_session with name := .jstr "S", conn_profile := .jstr "cat" }],
    conn_profiles := [("cat", UGConnProfile.empty_profile)] }

/-- A catalog dict whose `start_vnc_srv` and `vnc_manual` entries
disagree. -/
def c2_flagCatalog : JObj :=
  [("version", .jnum 1), ("servers", .jarr []), ("start_vnc_srv", .jbool true),
   ("forwarding_ports", .jarr []), ("vnc_manual", .jbool false)]

/-- A profile holding one session referencing `c2_flagCatalog`. -/
def c2_state_flag : UGUserProfile :=
  { viewer := "TigerVNC", last_session := 0,
    sessions := [{ UGUserProfile.empty_session with name := .jstr "S", conn_profile := .jstr "cat2" }],
    conn_profiles := [("cat2", c2_flagCatalog)] }


/-! ## Claims about `UGConnProfile` -/

/-- Claim C4: `UGConnProfile.load_profile` never raises to its caller
(it is total here), and on an I/O error, a parse error, a non-object
document, or a missing or mismatched `version` field it leaves the
instance equal to the freshly constructed default
(`servers = []`, `start_vnc_srv = false`, `forwarding_ports = []`),
regardless of the file's other content. -/
theorem UGConnProfile.conn_load_fails_closed :
    UGConnProfile.load_profile none = UGConnProfile.empty_profile ∧
    (∀ fields : JObj, UGConnProfile.versionFieldOk (jlookup fields "version") = false →
      UGConnProfile.load_profile (some (.jobj fields)) = UGConnProfile.empty_profile) ∧
    (∀ j : JValue, (∀ fields : JObj, j ≠ .jobj fields) →
      UGConnProfile.load_profile (some j) = UGConnProfile.empty_profile) := by
  refine ⟨rfl, ?_, ?_⟩
  · intro fields h
    simp [UGConnProfile.load_profile, h]
  · intro j h
    cases j <;> first | rfl | exact absurd rfl (h _)

/-- Witness for C4: a version-2 file with servers, and a top-level
array, both load to the default profile. -/
theorem UGConnProfile.conn_load_fails_closed_witness :
    UGConnProfile.load_profile
        (some (.jobj [("version", .jnum 2), ("servers", .jarr [.jstr "h"])])) =
      UGConnProfile.empty_profile ∧
    UGConnProfile.load_profile (some (.jarr [.jstr "version"])) = UGConnProfile.empty_profile :=
  ⟨UGConnProfile.conn_load_fails_closed.2.1 _ rfl,
   UGConnProfile.conn_load_fails_closed.2.2 _ (fun _ h => nomatch h)⟩

/-- Claim C5: for every valid connection-profile state, saving and then
loading reproduces the state — in particular an equal `servers`
sequence, an equal `start_vnc_srv` flag and an equal `forwarding_ports`
sequence. -/
theorem UGConnProfile.save_load_roundtrip (p : JObj) (h : UGConnProfile.valid p) :
    UGConnProfile.load_profile (UGConnProfile.save_profile p) = p ∧
    UGConnProfile.getItem (UGConnProfile.load_profile (UGConnProfile.save_profile p)) "servers" =
      UGConnProfile.getItem p "servers" ∧
    UGConnProfile.getItem (UGConnProfile.load_profile (UGConnProfile.save_profile p)) "start_vnc_srv" =
      UGConnProfile.getItem p "start_vnc_srv" ∧
    UGConnProfile.getItem (UGConnProfile.load_profile (UGConnProfile.save_profile p)) "forwarding_ports" =
      UGConnProfile.getItem p "forwarding_ports" := by
  have hload : UGConnProfile.load_profile (UGConnProfile.save_profile p) = p := by
    simp [UGConnProfile.load_profile, UGConnProfile.save_profile, h.2]
  exact ⟨hload, by rw [hload], by rw [hload], by rw [hload]⟩

/-- Witness for C5: a profile with three servers round-trips. -/
theorem UGConnProfile.save_load_roundtrip_witness :
    UGConnProfile.valid
        [("version", .jnum 1),
         ("servers", .jarr [.jstr "host1", .jstr "host2", .jstr "host3"]),
         ("start_vnc_srv", .jbool true),
         ("forwarding_ports", .jarr [.jarr [.jnum 2000, .jnum 1000]])] ∧
    UGConnProfile.load_profile (UGConnProfile.save_profile
        [("version", .jnum 1),
         ("servers", .jarr [.jstr "host1", .jstr "host2", .jstr "host3"]),
         ("start_vnc_srv", .jbool true),
         ("forwarding_ports", .jarr [.jarr [.jnum 2000, .jnum 1000]])]) =
        [("version", .jnum 1),
         ("servers", .jarr [.jstr "host1", .jstr "host2", .jstr "host3"]),
         ("start_vnc_srv", .jbool true),
         ("forwarding_ports", .jarr [.jarr [.jnum 2000, .jnum 1000]])] :=
  ⟨by decide, (UGConnProfile.save_load_roundtrip _ (by decide)).1⟩

/-- Claim C9: loading a file whose object carries only a matching
`version` succeeds — the parsed object replaces the whole record
unvalidated, the result is not the default — and a subsequent indexed
access to `"servers"` (an absent key) yields a key-lookup error, since
`__getitem__` has no implicit default. -/
theorem UGConnProfile.load_minimal_then_keyError :
    UGConnProfile.load_profile (some (.jobj [("version", .jnum 1)])) = [("version", .jnum 1)] ∧
    UGConnProfile.load_profile (some (.jobj [("version", .jnum 1)])) ≠ UGConnProfile.empty_profile ∧
    UGConnProfile.getItem (UGConnProfile.load_profile (some (.jobj [("version", .jnum 1)]))) "servers" =
      none := by
  have h1 : UGConnProfile.load_profile (some (.jobj [("version", .jnum 1)])) =
      [("version", .jnum 1)] := rfl
  refine ⟨h1, ?_, rfl⟩
  rw [h1]
  intro hcontra
  exact absurd (congrArg List.length hcontra) (by decide)

/-! ## Claims about `UGConnection` -/

/-- Claim C7: if the manager is already connected to `(hostname,
username)`, calling `connect` again for the same endpoint is a no-op —
the state is returned unchanged, no disconnect happens, and the result
does not depend on the transport oracle, i.e. no authentication is
attempted. -/
theorem UGConnection.connect_reuse (transportOk : String → String → AuthMethod → Bool)
    (c : UGConnection) (hostname username : String) (passwd key_filename : Option String)
    (hc : c.connected = true) (hh : c.hostname = some hostname)
    (hu : c.username = some username) :
    UGConnection.connect transportOk c hostname username passwd key_filename = (c, .reused) := by
  simp [UGConnection.connect, hc, hh, hu]

/-- Witness for C7: a second `connect` with a different password while
connected, against a transport that would refuse every authentication,
still reuses the connection unchanged. -/
theorem UGConnection.connect_reuse_witness :
    UGConnection.connect (fun _ _ _ => false)
        { connected := true, hostname := some "h", username := some "u" }
        "h" "u" (some "p2") none =
      ({ connected := true, hostname := some "h", username := some "u" }, .reused) :=
  UGConnection.connect_reuse _ _ _ _ _ _ rfl rfl rfl

/-- Claim C8: when the manager is not already connected to the requested
endpoint, `connect` with neither `passwd` nor `key_filename` raises the
invalid-argument error, attempts no authentication (the result does not
depend on the transport oracle), and leaves the manager disconnected
with `hostname` and `username` unset. -/
theorem UGConnection.connect_no_credentials (transportOk : String → String → AuthMethod → Bool)
    (c : UGConnection) (hostname username : String)
    (h : ¬(c.connected = true ∧ c.hostname = some hostname ∧ c.username = some username)) :
    UGConnection.connect transportOk c hostname username none none =
      ({ connected := false, hostname := none, username := none }, .invalidArgs) := by
  simp only [UGConnection.connect, UGConnection.disconnect, if_neg h]

/-- Witness for C8: a fresh manager, credential-less `connect`. -/
theorem UGConnection.connect_no_credentials_witness :
    UGConnection.connect (fun _ _ _ => true) UGConnection.init "h" "u" none none =
      ({ connected := false, hostname := none, username := none }, .invalidArgs) :=
  UGConnection.connect_no_credentials _ _ _ _ (by simp [UGConnection.init])

/-! ## Claims about `UGUserProfile.modify_session` -/

/-- Counterexample to claim C1: `modifySession(0, "alice",
"host-not-in-catalogX")` on the state after `addNewSession("A",
"catalogX")` raises the validation error, but the profile state is
*not* unchanged — `last_session` has moved from `-1` to `0` and
`sessions[0].username` from `""` to `"alice"`, because both are
assigned before the `last_server` membership check. -/
theorem UGUserProfile.modify_session_mutates_on_invalid_server :
    (UGUserProfile.modify_session c1_before 0 "alice" "host-not-in-catalogX" none none).2 =
      some PyErr.valueError ∧
    c1_before.last_session = -1 ∧
    (UGUserProfile.modify_session c1_before 0 "alice" "host-not-in-catalogX" none none).1.last_session = 0 ∧
    (UGUserProfile.modify_session c1_before 0 "alice" "host-not-in-catalogX" none none).1.last_session ≠
      c1_before.last_session ∧
    (c1_before.sessions.headD UGUserProfile.empty_session).username = .jstr "" ∧
    ((UGUserProfile.modify_session c1_before 0 "alice" "host-not-in-catalogX" none none).1.sessions.headD
        UGUserProfile.empty_session).username = .jstr "alice" ∧
    ((UGUserProfile.modify_session c1_before 0 "alice" "host-not-in-catalogX" none none).1.sessions.headD
        UGUserProfile.empty_session).username ≠
      (c1_before.sessions.headD UGUserProfile.empty_session).username := by
  refine ⟨rfl, rfl, rfl, by decide, rfl, rfl, ?_⟩
  have hne : JValue.jstr "alice" ≠ JValue.jstr "" := by simp
  exact hne

/-- Claim C1 as amended: on a state whose session `index` references a
catalog with a `servers` list that does not contain `last_server`,
`modify_session` raises the validation error and leaves
`sessions[index].last_server`, both credential paths, and every other
session untouched — but it has already set `last_session = index` and
`sessions[index].username = username` before raising, so exactly those
two fields change. -/
theorem UGUserProfile.modify_session_invalid_server (st : UGUserProfile) (i : Int)
    (u ls : String) (pk vp : Option String) (s : Session) (cp : JObj) (servers : JValue)
    (hi0 : 0 ≤ i) (hilen : i < (st.sessions.length : Int))
    (hs : st.sessions.get? i.toNat = some s)
    (hcp : UGUserProfile.lookupConnProfile st.conn_profiles s.conn_profile = some cp)
    (hsrv : jlookup cp "servers" = some servers)
    (hmem : pyMem (.jstr ls) servers = some false) :
    UGUserProfile.modify_session st i u ls pk vp =
      ({ st with
          last_session := i,
          sessions := (UGUserProfile.updSessions st.sessions i.toNat
            (fun t => { t with username := .jstr u })) },
        some PyErr.valueError) := by
  have hguard : ¬(i < 0 ∨ (st.sessions.length : Int) ≤ i) := by omega
  simp only [UGUserProfile.modify_session, if_neg hguard, hs, Option.getD_some, hcp, hsrv, hmem]
  simp

/-- Witness for the amended C1, at the scenario state. -/
theorem UGUserProfile.modify_session_invalid_server_witness :
    UGUserProfile.modify_session c1_before 0 "alice" "host-not-in-catalogX" none none =
      ({ c1_before with
          last_session := 0,
          sessions := (UGUserProfile.updSessions c1_before.sessions 0
            (fun t => { t with username := .jstr "alice" })) },
        some PyErr.valueError) :=
  UGUserProfile.modify_session_invalid_server c1_before 0 "alice" "host-not-in-catalogX" none none
    { UGUserProfile.empty_session with name := .jstr "A", conn_profile := .jstr "catalogX" }
    exampleCatalog (.jarr [.jstr "ug250.eecg.toronto.edu"])
    (by decide) (by decide) rfl rfl rfl rfl


/-! ## Claims about `UGUserProfile.load_profile` -/

/-- Inversion of a successful `load_profile_core` run on an object
document: success pins down every validation the `try` body performed. -/
theorem UGUserProfile.load_profile_core_ok (cps : List (String × JObj)) (pe : String → Bool)
    (fields : JObj) (v : String) (lsi : Int) (ss : List Session)
    (hok : UGUserProfile.load_profile_core cps pe (some (.jobj fields)) = .ok (v, lsi, ss)) :
    UGConnProfile.versionFieldOk (jlookup fields "version") = true ∧
    jlookup fields "viewer" = some (.jstr v) ∧
    UGUserProfile.supported_viewers.contains v = true ∧
    (∃ lsv, jlookup fields "last_session" = some lsv ∧ pyAsInt lsv = some lsi) ∧
    (∃ xs, jlookup fields "sessions" = some (.jarr xs) ∧ 0 ≤ lsi ∧ lsi < (xs.length : Int) ∧
      UGUserProfile.load_sessions_list cps pe xs = .ok ss) := by
  unfold UGUserProfile.load_profile_core at hok
  repeat' split at hok
  all_goals simp_all [pyLen]

/-- A session loop that succeeded reconciled every raw session. -/
theorem UGUserProfile.load_sessions_list_ok_all (cps : List (String × JObj)) (pe : String → Bool) :
    ∀ xs ss, UGUserProfile.load_sessions_list cps pe xs = .ok ss →
      ∀ j ∈ xs, ∃ s, UGUserProfile.load_session cps pe j = .ok s := by
  intro xs
  induction xs with
  | nil => intro ss _ j hj; cases hj
  | cons x rest ih =>
    intro ss h j hj
    unfold UGUserProfile.load_sessions_list at h
    cases hx : UGUserProfile.load_session cps pe x with
    | error e => rw [hx] at h; cases h
    | ok s =>
      rw [hx] at h
      cases hrest : UGUserProfile.load_sessions_list cps pe rest with
      | error e => rw [hrest] at h; cases h
      | ok ss2 =>
        cases hj with
        | head => exact ⟨s, hx⟩
        | tail _ hj2 => exact ih ss2 hrest j hj2

/-- Claim C3: `load_profile` never raises; whenever the load reports a
failure the resulting profile equals the default; in particular a
missing or mismatched `version`, an unsupported `viewer`, a
`last_session` outside `[0, len(sessions))`, and any session the
reconciler rejects (e.g. one referencing an unknown catalog name) each
leave the whole profile equal to the default — no partial state is
retained. -/
theorem UGUserProfile.load_profile_fails_closed (st : UGUserProfile) (pe : String → Bool) :
    (∀ file, (UGUserProfile.load_profile st pe file).2.isSome →
      (UGUserProfile.load_profile st pe file).1 = UGUserProfile.empty_on st.conn_profiles) ∧
    (∀ fields : JObj, UGConnProfile.versionFieldOk (jlookup fields "version") = false →
      UGUserProfile.load_profile st pe (some (.jobj fields)) =
        (UGUserProfile.empty_on st.conn_profiles, some PyErr.valueError)) ∧
    (∀ fields : JObj, ∀ vv, jlookup fields "viewer" = some vv →
      (∀ s, vv = .jstr s → UGUserProfile.supported_viewers.contains s = false) →
      (UGUserProfile.load_profile st pe (some (.jobj fields))).1 = UGUserProfile.empty_on st.conn_profiles ∧
      (UGUserProfile.load_profile st pe (some (.jobj fields))).2.isSome) ∧
    (∀ fields : JObj, ∀ lsv lsi ssv n, jlookup fields "last_session" = some lsv →
      pyAsInt lsv = some lsi → jlookup fields "sessions" = some ssv → pyLen ssv = some n →
      (lsi < 0 ∨ (n : Int) ≤ lsi) →
      (UGUserProfile.load_profile st pe (some (.jobj fields))).1 = UGUserProfile.empty_on st.conn_profiles ∧
      (UGUserProfile.load_profile st pe (some (.jobj fields))).2.isSome) ∧
    (∀ fields : JObj, ∀ xs, jlookup fields "sessions" = some (.jarr xs) →
      (∃ j ∈ xs, ∃ e, UGUserProfile.load_session st.conn_profiles pe j = .error e) →
      (UGUserProfile.load_profile st pe (some (.jobj fields))).1 = UGUserProfile.empty_on st.conn_profiles ∧
      (UGUserProfile.load_profile st pe (some (.jobj fields))).2.isSome) := by
  have h1 : ∀ file, (UGUserProfile.load_profile st pe file).2.isSome →
      (UGUserProfile.load_profile st pe file).1 = UGUserProfile.empty_on st.conn_profiles := by
    intro file h
    cases hcore : UGUserProfile.load_profile_core st.conn_profiles pe file with
    | error e => simp [UGUserProfile.load_profile, hcore]
    | ok t => simp [UGUserProfile.load_profile, hcore] at h
  have hnone : ∀ fields : JObj, ¬((UGUserProfile.load_profile st pe (some (.jobj fields))).2.isSome) →
      ∃ v lsi ss, UGUserProfile.load_profile_core st.conn_profiles pe (some (.jobj fields)) = .ok (v, lsi, ss) := by
    intro fields h
    cases hcore : UGUserProfile.load_profile_core st.conn_profiles pe (some (.jobj fields)) with
    | error e => simp [UGUserProfile.load_profile, hcore] at h
    | ok t =>
      obtain ⟨v, lsi, ss⟩ := t
      exact ⟨v, lsi, ss, rfl⟩
  refine ⟨h1, ?_, ?_, ?_, ?_⟩
  · intro fields h
    simp [UGUserProfile.load_profile, UGUserProfile.load_profile_core, h]
  · intro fields vv hv hbad
    by_cases hs : (UGUserProfile.load_profile st pe (some (.jobj fields))).2.isSome
    · exact ⟨h1 _ hs, hs⟩
    · exfalso
      obtain ⟨v, lsi, ss, hcore⟩ := hnone fields hs
      obtain ⟨-, hview, hcontains, -, -⟩ := UGUserProfile.load_profile_core_ok _ _ _ _ _ _ hcore
      rw [hv] at hview
      simp only [Option.some.injEq] at hview
      have hb := hbad v hview
      simp [UGUserProfile.supported_viewers] at hcontains hb
      rcases hcontains with h2 | h2
      · exact hb.1 h2
      · exact hb.2 h2
  · intro fields lsv lsi ssv n hls hint hss hlen hrange
    by_cases hs : (UGUserProfile.load_profile st pe (some (.jobj fields))).2.isSome
    · exact ⟨h1 _ hs, hs⟩
    · exfalso
      obtain ⟨v, lsi2, ss, hcore⟩ := hnone fields hs
      obtain ⟨-, -, -, ⟨lsv2, hls2, hint2⟩, ⟨xs, hss2, hge, hlt, -⟩⟩ :=
        UGUserProfile.load_profile_core_ok _ _ _ _ _ _ hcore
      rw [hls] at hls2
      simp only [Option.some.injEq] at hls2
      subst hls2
      rw [hint] at hint2
      simp only [Option.some.injEq] at hint2
      subst hint2
      rw [hss] at hss2
      simp only [Option.some.injEq] at hss2
      subst hss2
      simp only [pyLen, Option.some.injEq] at hlen
      omega
  · intro fields xs hss hexist
    obtain ⟨j, hj, e, herr⟩ := hexist
    by_cases hs : (UGUserProfile.load_profile st pe (some (.jobj fields))).2.isSome
    · exact ⟨h1 _ hs, hs⟩
    · exfalso
      obtain ⟨v, lsi2, ss, hcore⟩ := hnone fields hs
      obtain ⟨-, -, -, -, ⟨xs2, hss2, -, -, hload⟩⟩ :=
        UGUserProfile.load_profile_core_ok _ _ _ _ _ _ hcore
      rw [hss] at hss2
      simp only [Option.some.injEq, JValue.jarr.injEq] at hss2
      subst hss2
      obtain ⟨s, hsok⟩ := UGUserProfile.load_sessions_list_ok_all _ _ _ _ hload j hj
      rw [herr] at hsok
      cases hsok

/-- Witness for C3: a well-versioned file whose single session
references a catalog name the construction-time scan never produced
loads to the default profile with a reported failure. -/
theorem UGUserProfile.load_profile_fails_closed_witness :
    (UGUserProfile.load_profile (UGUserProfile.empty_on [("catalogX", exampleCatalog)]) (fun _ => false)
        (some (.jobj [("version", .jnum 1), ("viewer", .jstr "TigerVNC"), ("last_session", .jnum 0),
          ("sessions", .jarr [.jobj [("name", .jstr "S"), ("conn_profile", .jstr "missing-catalog")]])]))).1 =
      UGUserProfile.empty_on [("catalogX", exampleCatalog)] ∧
    (UGUserProfile.load_profile (UGUserProfile.empty_on [("catalogX", exampleCatalog)]) (fun _ => false)
        (some (.jobj [("version", .jnum 1), ("viewer", .jstr "TigerVNC"), ("last_session", .jnum 0),
          ("sessions", .jarr [.jobj [("name", .jstr "S"), ("conn_profile", .jstr "missing-catalog")]])]))).2.isSome :=
  (UGUserProfile.load_profile_fails_closed _ _).2.2.2.2 _ _ rfl
    ⟨.jobj [("name", .jstr "S"), ("conn_profile", .jstr "missing-catalog")], by simp,
     PyErr.keyError, rfl⟩

/-- Claim C10: a profile whose `last_session` is `-1` ("none selected")
saves to a file that its own `load_profile` then rejects at the
`last_session < 0` check, so the loaded state is the empty default —
every saved session is discarded and save-then-load is not a round
trip for such profiles. -/
theorem UGUserProfile.save_then_load_discards (st : UGUserProfile) (pe : String → Bool)
    (h : st.last_session = -1) :
    UGUserProfile.load_profile st pe (UGUserProfile.save_profile st) =
      (UGUserProfile.empty_on st.conn_profiles, some PyErr.valueError) ∧
    (UGUserProfile.load_profile st pe (UGUserProfile.save_profile st)).1.sessions = [] := by
  have hcore : UGUserProfile.load_profile_core st.conn_profiles pe (UGUserProfile.save_profile st) =
      .error PyErr.valueError := by
    unfold UGUserProfile.save_profile UGUserProfile.load_profile_core
    by_cases hv : UGUserProfile.supported_viewers.contains st.viewer <;>
      simp [jlookup, UGConnProfile.versionFieldOk, pyEq, UGConnProfile.version, pyAsInt, h, hv]
  constructor
  · simp [UGUserProfile.load_profile, hcore]
  · simp [UGUserProfile.load_profile, hcore, UGUserProfile.empty_on]

/-- Witness for C10: the one-session scenario profile (never modified,
so `last_session = -1`) loses its session on save-then-load. -/
theorem UGUserProfile.save_then_load_discards_witness :
    UGUserProfile.load_profile c1_before (fun _ => true) (UGUserProfile.save_profile c1_before) =
      (UGUserProfile.empty_on c1_before.conn_profiles, some PyErr.valueError) :=
  (UGUserProfile.save_then_load_discards c1_before _ rfl).1

/-! ## Claims about `UGUserProfile.query_sessions` -/

/-- Counterexample to claim C2: `query_sessions` does not succeed merely
because every session's catalog name is a key of the catalog mapping —
with the freshly constructed default catalog it raises a `KeyError`
(the default dict has no `vnc_manual` entry); and the flag placed in
the view is the catalog's `vnc_manual` entry, not its `start_vnc_srv`
(`autoStartRemoteService`) field, as a catalog on which the two
disagree shows. -/
theorem UGUserProfile.query_sessions_counterexample :
    ((c2_state_missing.conn_profiles.find? (fun kv => kv.1 == "cat")).isSome = true ∧
     (c2_state_missing.sessions.headD UGUserProfile.empty_session).conn_profile = .jstr "cat" ∧
     UGUserProfile.query_sessions c2_state_missing = .error PyErr.keyError) ∧
    (UGConnProfile.getItem c2_flagCatalog "start_vnc_srv" = some (.jbool true) ∧
     UGUserProfile.query_sessions c2_state_flag =
       .ok [{ name := .jstr "S", servers := .jarr [], last_server := .jstr "",
              username := .jstr "", passwd := false, vnc_manual := .jbool false,
              vnc_passwd := false }] ∧
     JValue.jbool false ≠ JValue.jbool true) := by
  refine ⟨⟨rfl, rfl, rfl⟩, rfl, rfl, ?_⟩
  simp

/-- When every session's catalog resolves and carries both required
entries, the query loop succeeds with one view per session in order. -/
theorem UGUserProfile.query_sessions_list_all_ok (cps : List (String × JObj)) :
    ∀ ss : List Session,
      (∀ s ∈ ss, ∃ cp, UGUserProfile.lookupConnProfile cps s.conn_profile = some cp ∧
        (jlookup cp "servers").isSome ∧ (jlookup cp "vnc_manual").isSome) →
      UGUserProfile.query_sessions_list cps ss = .ok (ss.map (UGUserProfile.query_one_view cps)) := by
  intro ss
  induction ss with
  | nil => intro _; rfl
  | cons s rest ih =>
    intro h
    obtain ⟨cp, hcp, hsrv, hvm⟩ := h s (List.mem_cons_self s rest)
    obtain ⟨servers, hsrv2⟩ := Option.isSome_iff_exists.mp hsrv
    obtain ⟨vm, hvm2⟩ := Option.isSome_iff_exists.mp hvm
    have hone : UGUserProfile.query_one cps s = .ok (UGUserProfile.query_one_view cps s) := by
      simp [UGUserProfile.query_one, UGUserProfile.query_one_view, hcp, hsrv2, hvm2]
    have hrest := ih (fun t ht => h t (List.mem_cons_of_mem s ht))
    simp [UGUserProfile.query_sessions_list, hone, hrest]

/-- Claim C2 as amended: `query_sessions` returns one view per session,
in session order, with the session's name, the catalog's `servers`
entry, the session's `last_server` and `username`, the catalog's
`vnc_manual` entry (not its `start_vnc_srv` field), and the presence
flags `passwd = (private_key_path != "")` and
`vnc_passwd = (vnc_passwd_path != "")` — and it succeeds whenever every
session's catalog name resolves *and* each referenced catalog dict has
both a `servers` and a `vnc_manual` entry. -/
theorem UGUserProfile.query_sessions_views (st : UGUserProfile)
    (h : ∀ s ∈ st.sessions, ∃ cp,
      UGUserProfile.lookupConnProfile st.conn_profiles s.conn_profile = some cp ∧
      (jlookup cp "servers").isSome ∧ (jlookup cp "vnc_manual").isSome) :
    UGUserProfile.query_sessions st =
      .ok (st.sessions.map (UGUserProfile.query_one_view st.conn_profiles)) ∧
    (∀ s cp servers vm,
      UGUserProfile.lookupConnProfile st.conn_profiles s.conn_profile = some cp →
      jlookup cp "servers" = some servers → jlookup cp "vnc_manual" = some vm →
      UGUserProfile.query_one st.conn_profiles s = .ok
        { name := s.name, servers := servers, last_server := s.last_server,
          username := s.username, passwd := pyNe s.private_key_path (.jstr ""),
          vnc_manual := vm, vnc_passwd := pyNe s.vnc_passwd_path (.jstr "") }) := by
  constructor
  · exact UGUserProfile.query_sessions_list_all_ok st.conn_profiles st.sessions h
  · intro s cp servers vm hcp hsrv hvm
    simp [UGUserProfile.query_one, hcp, hsrv, hvm]

/-- Witness for the amended C2, on the catalog that carries both
entries. -/
theorem UGUserProfile.query_sessions_views_witness :
    UGUserProfile.query_sessions c2_state_flag =
      .ok (c2_state_flag.sessions.map (UGUserProfile.query_one_view c2_state_flag.conn_profiles)) :=
  (UGUserProfile.query_sessions_views c2_state_flag
    (by
      intro s hs
      simp [c2_state_flag] at hs
      subst hs
      exact ⟨c2_flagCatalog, rfl, rfl, rfl⟩)).1

/-! ## Claims about `UGUserProfile.load_session` -/

/-- Inversion of a successful reconciliation: the reconciled
`vnc_passwd_path` is either empty or a path that exists together with
an existing `private_key_path`. -/
theorem UGUserProfile.load_session_ok_shape (cps : List (String × JObj))
    (pe : String → Bool) (session : JValue) (r : Session)
    (hok : UGUserProfile.load_session cps pe session = .ok r) :
    r.vnc_passwd_path = .jstr "" ∨
    (∃ pk vp, r.private_key_path = .jstr pk ∧ pe pk = true ∧
      r.vnc_passwd_path = .jstr vp ∧ pe vp = true) := by
  unfold UGUserProfile.load_session at hok
  repeat' split at hok
  all_goals try (cases hok)
  all_goals simp_all

/-- Claim C6: reconciliation checks `vnc_passwd_path` only under a kept
`private_key_path`: when the private-key path does not exist the
reconciled session has both paths empty — even if the VNC password
file exists on disk (the key is not even read); when the key exists and
the VNC password path does not, `vnc_passwd_path` is normalized to
empty; and (for a filesystem on which the empty path does not exist,
as `os.path.exists("")` is always false) no reconciled session has a
non-empty `vnc_passwd_path` with an empty `private_key_path`. -/
theorem UGUserProfile.load_session_vnc_gated (cps : List (String × JObj))
    (pe : String → Bool) (fields : JObj) (n cpn : JValue) (cp : JObj)
    (lsv servers : JValue) (mem : Bool) (uv : JValue) (pk vp : String)
    (hn : jlookup fields "name" = some n)
    (hcpn : jlookup fields "conn_profile" = some cpn)
    (hcp : UGUserProfile.lookupConnProfile cps cpn = some cp)
    (hls : jlookup fields "last_server" = some lsv)
    (hsrv : jlookup cp "servers" = some servers)
    (hmem : pyMem lsv servers = some mem)
    (hu : jlookup fields "username" = some uv)
    (hpk : jlookup fields "private_key_path" = some (.jstr pk))
    (hvp : jlookup fields "vnc_passwd_path" = some (.jstr vp)) :
    (pe pk = false →
      UGUserProfile.load_session cps pe (.jobj fields) =
        .ok { name := n, conn_profile := cpn,
              last_server := if mem then lsv else .jstr "",
              username := uv, private_key_path := .jstr "",
              vnc_passwd_path := .jstr "" }) ∧
    (pe pk = true → pe vp = false →
      UGUserProfile.load_session cps pe (.jobj fields) =
        .ok { name := n, conn_profile := cpn,
              last_server := if mem then lsv else .jstr "",
              username := uv, private_key_path := .jstr pk,
              vnc_passwd_path := .jstr "" }) ∧
    (∀ session r, pe "" = false →
      UGUserProfile.load_session cps pe session = .ok r →
      r.vnc_passwd_path ≠ .jstr "" → r.private_key_path ≠ .jstr "") := by
  refine ⟨?_, ?_, ?_⟩
  · intro hpe
    simp [UGUserProfile.load_session, jgetKey, hn, hcpn, hcp, hls, hsrv, hmem, hu, hpk, hpe]
  · intro hpe1 hpe2
    simp [UGUserProfile.load_session, jgetKey, hn, hcpn, hcp, hls, hsrv, hmem, hu, hpk, hvp,
      hpe1, hpe2]
  · intro session r hempty hok hvnc
    rcases UGUserProfile.load_session_ok_shape cps pe session r hok with hshape | ⟨pk2, vp2, hp, hpe, hv, hve⟩
    · exact absurd hshape hvnc
    · intro hcontra
      rw [hcontra] at hp
      have h2 : pk2 = "" := (JValue.jstr.inj hp).symm
      rw [h2, hempty] at hpe
      simp at hpe

/-- Witness for C6: the private-key path is absent from the filesystem
while the VNC password file exists — both reconciled paths come out
empty. -/
theorem UGUserProfile.load_session_vnc_gated_witness :
    (fun s => s == "/keys/vnc") "/keys/vnc" = true ∧
    UGUserProfile.load_session [("cat", exampleCatalog)] (fun s => s == "/keys/vnc")
        (.jobj [("name", .jstr "S"), ("conn_profile", .jstr "cat"), ("last_server", .jstr "h1"),
                ("username", .jstr "u"), ("private_key_path", .jstr "/keys/id_rsa"),
                ("vnc_passwd_path", .jstr "/keys/vnc")]) =
      .ok { name := .jstr "S", conn_profile := .jstr "cat", last_server := .jstr "",
            username := .jstr "u", private_key_path := .jstr "",
            vnc_passwd_path := .jstr "" } := by
  refine ⟨rfl, ?_⟩
  have h := (UGUserProfile.load_session_vnc_gated [("cat", exampleCatalog)]
    (fun s => s == "/keys/vnc")
    [("name", .jstr "S"), ("conn_profile", .jstr "cat"), ("last_server", .jstr "h1"),
     ("username", .jstr "u"), ("private_key_path", .jstr "/keys/id_rsa"),
     ("vnc_passwd_path", .jstr "/keys/vnc")]
    (.jstr "S") (.jstr "cat") exampleCatalog (.jstr "h1")
    (.jarr [.jstr "ug250.eecg.toronto.edu"]) false (.jstr "u") "/keys/id_rsa" "/keys/vnc"
    rfl rfl rfl rfl rfl rfl rfl rfl rfl).1 rfl
  simpa using h
